import Mathlib

/-!
# Verification of the smart-recipe authentication client

A shallow embedding of the client-side authentication subsystem
(`useAuthStore`, its axios instance and the two interceptors) together
with a model of the server-side Token Service refresh rotation described
in the specification.  JavaScript `string | null` values are embedded as
`Option String`; JS truthiness on such a value (`if (token)`) is false
exactly on `null` and on the empty string, which `truthy` captures.
Server behaviour is passed in as an explicit parameter of each operation
(`none` = the HTTP call throws, `some r` = it resolves with body `r`).
-/

/-- The `User` record held by the store (interface `User`). -/
structure User where
  id : String
  username : String
  email : Option String
  phone : Option String
  is_verified : Bool
  region : String
  avatar_url : Option String
  is_paid : Bool
deriving DecidableEq, Repr

/-- The state slice of `AuthState` (the function fields are modelled
separately as state transformers). -/
structure AuthState where
  user : Option User
  accessToken : Option String
  refreshToken : Option String
  isAuthenticated : Bool
  isLoading : Bool
deriving DecidableEq, Repr

/-- The store's initial state (lines 112-116 of the source). -/
def initialState : AuthState :=
  { user := none, accessToken := none, refreshToken := none,
    isAuthenticated := false, isLoading := false }

/-- JavaScript truthiness of a `string | null` value: `null` and `""`
are falsy, every other string is truthy. -/
def truthy : Option String → Bool
  | none => false
  | some s => !s.isEmpty

/-- `clearAuth`: resets every field of the store. -/
def clearAuth (_s : AuthState) : AuthState :=
  { user := none, accessToken := none, refreshToken := none,
    isAuthenticated := false, isLoading := false }

/-- `setTokens`: stores a pair of (non-null) tokens and marks the
session authenticated. -/
def setTokens (accessToken refreshToken : String) (s : AuthState) : AuthState :=
  { s with accessToken := some accessToken, refreshToken := some refreshToken,
           isAuthenticated := true }

/-- `setUser`. -/
def setUser (u : User) (s : AuthState) : AuthState :=
  { s with user := some u }

/-- `setLoading`. -/
def setLoading (b : Bool) (s : AuthState) : AuthState :=
  { s with isLoading := b }

/-- Body of a successful `/auth/login` response as destructured by the
store; the fields are `Option` because the destructuring is untyped and
a missing field yields `undefined`. -/
structure LoginResponse where
  access_token : Option String
  refresh_token : Option String
  user : Option User
deriving DecidableEq, Repr

/-- `login`: sets `isLoading`, posts `/auth/login`; on success stores
user and tokens and flags `isAuthenticated`; on failure only resets
`isLoading` and rethrows.  `srv = none` models the call throwing. -/
def login (srv : Option LoginResponse) (s : AuthState) :
    AuthState × Except Unit Unit :=
  match srv with
  | some r =>
      ({ s with user := r.user, accessToken := r.access_token,
                refreshToken := r.refresh_token,
                isAuthenticated := true, isLoading := false }, .ok ())
  | none => ({ s with isLoading := false }, .error ())

/-- `register`: posts `/auth/register`; in both branches only
`isLoading` is touched, and a failure is rethrown. -/
def register (srv : Option Unit) (s : AuthState) :
    AuthState × Except Unit Unit :=
  match srv with
  | some _ => ({ s with isLoading := false }, .ok ())
  | none => ({ s with isLoading := false }, .error ())

/-- `logout`: posts `/auth/logout`; a throwing call is caught and only
logged, and the `finally` block clears the whole state either way, so
`logout` never throws and always ends in the cleared state. -/
def logout (srvOk : Bool) (_logoutAllDevices : Bool) (s : AuthState) : AuthState :=
  match srvOk with
  | true => clearAuth s
  | false => clearAuth s

/-- Error raised by `refreshAccessToken`. -/
inductive RefreshError
  | noRefreshToken
  | serverError
deriving DecidableEq, Repr

instance {ε α : Type} [DecidableEq ε] [DecidableEq α] : DecidableEq (Except ε α)
  | .ok a, .ok b =>
      if h : a = b then .isTrue (by rw [h]) else .isFalse (by simp [h])
  | .ok _, .error _ => .isFalse (by simp)
  | .error _, .ok _ => .isFalse (by simp)
  | .error e, .error e' =>
      if h : e = e' then .isTrue (by rw [h]) else .isFalse (by simp [h])

/-- Result of one `refreshAccessToken` invocation: the new store state,
whether it resolved or threw, and how many network requests it made to
`/auth/refresh-token`. -/
structure RefreshResult where
  state : AuthState
  outcome : Except RefreshError Unit
  networkCalls : Nat
deriving DecidableEq, Repr

/-- `refreshAccessToken` (lines 170-192): throws immediately when the
cached refresh token is falsy; otherwise posts `/auth/refresh-token`, on
success stores the returned pair, on failure calls `clearAuth` and
rethrows.  `srv` is the server outcome: `none` = the call throws,
`some (a, r)` = it resolves with body `{access_token := a,
refresh_token := r}`. -/
def refreshAccessToken (srv : Option (Option String × Option String))
    (s : AuthState) : RefreshResult :=
  if truthy s.refreshToken = false then
    ⟨s, .error .noRefreshToken, 0⟩
  else
    match srv with
    | some (a, r) =>
        ⟨{ s with accessToken := a, refreshToken := r }, .ok (), 1⟩
    | none => ⟨clearAuth s, .error .serverError, 1⟩

/-- `sendVerificationCode`: a bare `await api.post`; no state change,
errors propagate. -/
def sendVerificationCode (srv : Option Unit) (s : AuthState) :
    AuthState × Except Unit Unit :=
  (s, match srv with | some _ => .ok () | none => .error ())

/-- `forgotPassword`: a bare `await api.post`; no state change. -/
def forgotPassword (srv : Option Unit) (s : AuthState) :
    AuthState × Except Unit Unit :=
  (s, match srv with | some _ => .ok () | none => .error ())

/-- `resetPassword`: a bare `await api.post`; no state change. -/
def resetPassword (srv : Option Unit) (s : AuthState) :
    AuthState × Except Unit Unit :=
  (s, match srv with | some _ => .ok () | none => .error ())

/-- `changePassword`: a bare `await api.post`; no state change. -/
def changePassword (srv : Option Unit) (s : AuthState) :
    AuthState × Except Unit Unit :=
  (s, match srv with | some _ => .ok () | none => .error ())

/-! ## The axios interceptors -/

/-- An outgoing request's config, restricted to the parts the
interceptors touch: the `Authorization` header and the `_retry` flag
(absent, i.e. `undefined`, is `false`). -/
structure RequestConfig where
  authorization : Option String
  retry : Bool
deriving DecidableEq, Repr

/-- The request interceptor (lines 72-78): reads the cached access
token and, when it is truthy, sets `Authorization: Bearer <token>`;
otherwise leaves the config untouched. -/
def attachAuthHeader (s : AuthState) (c : RequestConfig) : RequestConfig :=
  match s.accessToken with
  | some t => if t.isEmpty then c else { c with authorization := some ("Bearer " ++ t) }
  | none => c

/-- What the response-error interceptor does with the failed call:
re-issue the (mutated) original request through `api`, or reject the
promise with the original error. -/
inductive InterceptAction
  | retryWith (req : RequestConfig)
  | reject
deriving DecidableEq, Repr

/-- Outcome of one run of the response-error interceptor. -/
structure InterceptResult where
  state : AuthState
  action : InterceptAction
  redirectedToLogin : Bool
  refreshNetworkCalls : Nat
deriving DecidableEq, Repr

/-- The response-error interceptor (lines 81-105).  On a 401 whose
request has not been retried yet it sets `_retry`, invokes
`refreshAccessToken` (unconditionally: there is no check for an
already-in-flight refresh), and on success re-issues the request with
the freshly cached token if that token is truthy; if the refresh threw,
it clears the auth state, redirects to `/login` and rejects with the
original error.  Any other case falls through to a plain rejection. -/
def onResponseError (refreshSrv : Option (Option String × Option String))
    (s : AuthState) (status : Nat) (req : RequestConfig) : InterceptResult :=
  if status = 401 ∧ req.retry = false then
    let req' : RequestConfig := { req with retry := true }
    let res := refreshAccessToken refreshSrv s
    match res.outcome with
    | .ok _ =>
        match res.state.accessToken with
        | some t =>
            if t.isEmpty then
              ⟨res.state, .reject, false, res.networkCalls⟩
            else
              ⟨res.state,
               .retryWith { req' with authorization := some ("Bearer " ++ t) },
               false, res.networkCalls⟩
        | none => ⟨res.state, .reject, false, res.networkCalls⟩
    | .error _ =>
        ⟨clearAuth res.state, .reject, true, res.networkCalls⟩
  else
    ⟨s, .reject, false, 0⟩

/-- A batch of calls that all just received a 401, handled one after the
other (one interleaving of the single-threaded event loop); returns the
final store state and the total number of network requests made to
`/auth/refresh-token`. -/
def processFailingCalls (refreshSrv : Option (Option String × Option String))
    (s : AuthState) (reqs : List RequestConfig) : AuthState × Nat :=
  reqs.foldl
    (fun acc req =>
      ((onResponseError refreshSrv acc.1 401 req).state,
       acc.2 + (onResponseError refreshSrv acc.1 401 req).refreshNetworkCalls))
    (s, 0)

/-- Driver for one logical API call: each recursion step sends the
request once (`statuses i` is the HTTP status of the `i`-th attempt);
a non-401 resolves the call, a 401 goes through `onResponseError`,
whose `retryWith` re-enters `api` with the mutated request.  Returns
the final state and the number of attempts actually sent.  The fuel
only bounds the modelled execution; the interceptor's `_retry` flag is
what stops the loop. -/
def runRequest (refreshSrv : Option (Option String × Option String))
    (statuses : Nat → Nat) :
    Nat → AuthState → RequestConfig → Nat → AuthState × Nat
  | 0, s, _, _ => (s, 0)
  | fuel + 1, s, req, i =>
      if statuses i = 401 then
        let r := onResponseError refreshSrv s (statuses i) req
        match r.action with
        | .retryWith req' =>
            let rec' := runRequest refreshSrv statuses fuel r.state req' (i + 1)
            (rec'.1, 1 + rec'.2)
        | .reject => (r.state, 1)
      else (s, 1)

/-! ## Server-side Token Service (modelled from the spec) -/

/-- Token-error taxonomy of the refresh endpoint (spec section 4.3). -/
inductive TokenErr
  | tokenReuseError
  | sessionRevoked
deriving DecidableEq, Repr

/-- Modelled from the spec: the server-side `Session` record (spec
section 3) — the backend is not part of the sources, only its client
is.  `refresh_token_hash` is the hash of the currently valid refresh
token, `previous_token_hash` the one rotated away last (for the grace
window), `rotated_at` the time of the last rotation. -/
structure Session where
  refresh_token_hash : String
  previous_token_hash : Option String
  rotated_at : Nat
  expires_at : Nat
  is_active : Bool
deriving DecidableEq, Repr

/-- Modelled from the spec: the hash under which refresh tokens are
stored ("only its hash is stored").  Any injective function models it;
this one prefixes a marker character. -/
def hashToken (raw : String) : String := String.mk ('#' :: raw.data)

/-- Successful outcomes of the refresh endpoint: a fresh rotation, or
the benign grace-window case that re-delivers the current pair. -/
inductive RefreshOutcome
  | rotated (newAccess newRefresh : String)
  | graceCurrent
deriving DecidableEq, Repr

/-- Modelled from the spec: `Token Service.refresh` (spec section 4.3),
absent from the sources.  Hashes the presented raw token and resolves
one of the three specified outcomes against the session found by hash
lookup: (1) match on the current hash rotates the pair (current hash
moves to `previous_token_hash`, expiry is extended); (2) match on
`previous_token_hash` within the grace window is benign and re-delivers
the current pair; (3) anything else is replay — the session is revoked
and the call fails with `TokenReuseError`.  A revoked session fails
with `SessionRevoked` regardless of hash match.  `now` is the current
time, `grace` the grace-window length, `ext` the lifetime extension,
`newAccess`/`newRaw` the freshly generated token values used when a
rotation happens. -/
def serverRefresh (now grace ext : Nat) (newAccess newRaw : String)
    (raw : String) (sess : Session) : Session × Except TokenErr RefreshOutcome :=
  if sess.is_active = false then
    (sess, .error .sessionRevoked)
  else if hashToken raw = sess.refresh_token_hash then
    ({ sess with refresh_token_hash := hashToken newRaw,
                 previous_token_hash := some sess.refresh_token_hash,
                 rotated_at := now,
                 expires_at := now + ext },
     .ok (.rotated newAccess newRaw))
  else if sess.previous_token_hash = some (hashToken raw) ∧ now ≤ sess.rotated_at + grace then
    (sess, .ok .graceCurrent)
  else
    ({ sess with is_active := false }, .error .tokenReuseError)

/-! ## The store operations as a single step relation -/

/-- One invocation of any operation of the auth store, with the server
outcome it observes baked in. -/
inductive StoreOp
  | login (srv : Option LoginResponse)
  | register (srv : Option Unit)
  | logout (srvOk : Bool) (allDevices : Bool)
  | refreshAccessToken (srv : Option (Option String × Option String))
  | sendVerificationCode (srv : Option Unit)
  | forgotPassword (srv : Option Unit)
  | resetPassword (srv : Option Unit)
  | changePassword (srv : Option Unit)
  | setTokens (accessToken refreshToken : String)
  | clearAuth
  | setUser (u : User)
  | setLoading (b : Bool)
deriving DecidableEq, Repr

/-- The state reached after running one store operation. -/
def applyOp : StoreOp → AuthState → AuthState
  | .login srv, s => (login srv s).1
  | .register srv, s => (register srv s).1
  | .logout srvOk all, s => logout srvOk all s
  | .refreshAccessToken srv, s => (refreshAccessToken srv s).state
  | .sendVerificationCode srv, s => (sendVerificationCode srv s).1
  | .forgotPassword srv, s => (forgotPassword srv s).1
  | .resetPassword srv, s => (resetPassword srv s).1
  | .changePassword srv, s => (changePassword srv s).1
  | .setTokens a r, s => setTokens a r s
  | .clearAuth, s => clearAuth s
  | .setUser u, s => setUser u s
  | .setLoading b, s => setLoading b s

/-- The invariant: an authenticated state always holds both tokens. -/
def tokenInvariant (s : AuthState) : Prop :=
  s.isAuthenticated = true → s.accessToken ≠ none ∧ s.refreshToken ≠ none

instance (s : AuthState) : Decidable (tokenInvariant s) :=
  decidable_of_iff
    (s.isAuthenticated = true → s.accessToken ≠ none ∧ s.refreshToken ≠ none) Iff.rfl

/-- Precondition on the server outcome an operation observes: token
fields of successful token-bearing responses are present (not
`undefined`/`null`). -/
def serverTokensNonNull : StoreOp → Prop
  | .login (some r) => r.access_token ≠ none ∧ r.refresh_token ≠ none
  | .refreshAccessToken (some (a, r)) => a ≠ none ∧ r ≠ none
  | _ => True

instance (op : StoreOp) : Decidable (serverTokensNonNull op) :=
  match op with
  | .login none => decidable_of_iff True Iff.rfl
  | .login (some r) =>
      decidable_of_iff (r.access_token ≠ none ∧ r.refresh_token ≠ none) Iff.rfl
  | .register _ => decidable_of_iff True Iff.rfl
  | .logout _ _ => decidable_of_iff True Iff.rfl
  | .refreshAccessToken none => decidable_of_iff True Iff.rfl
  | .refreshAccessToken (some (a, r)) =>
      decidable_of_iff (a ≠ none ∧ r ≠ none) Iff.rfl
  | .sendVerificationCode _ => decidable_of_iff True Iff.rfl
  | .forgotPassword _ => decidable_of_iff True Iff.rfl
  | .resetPassword _ => decidable_of_iff True Iff.rfl
  | .changePassword _ => decidable_of_iff True Iff.rfl
  | .setTokens _ _ => decidable_of_iff True Iff.rfl
  | .clearAuth => decidable_of_iff True Iff.rfl
  | .setUser _ => decidable_of_iff True Iff.rfl
  | .setLoading _ => decidable_of_iff True Iff.rfl

/-! ## Theorems -/

/-- C5: `logout` always ends with the local auth state fully cleared
(user, tokens, `isAuthenticated`, `isLoading`), whether the server-side
logout call succeeds (`srvOk = true`) or throws (`srvOk = false`); the
transport error is swallowed (`logout` returns a state, it has no
throwing outcome at all). -/
theorem c5_logout_always_clears (srvOk allDevices : Bool) (s : AuthState) :
    logout srvOk allDevices s =
      { user := none, accessToken := none, refreshToken := none,
        isAuthenticated := false, isLoading := false } := by
  cases srvOk <;> rfl

/-- C7: the request interceptor attaches the cached access token as a
`Bearer` Authorization header whenever a (non-empty) token is cached,
and adds no Authorization header when none is cached. -/
theorem c7_request_decoration (s : AuthState) (c : RequestConfig) :
    (∀ t : String, s.accessToken = some t → t ≠ "" →
        attachAuthHeader s c = { c with authorization := some ("Bearer " ++ t) })
    ∧ (s.accessToken = none → attachAuthHeader s c = c) := by
  refine ⟨fun t ht hne => ?_, fun h => ?_⟩
  · rw [attachAuthHeader, ht]
    simp [String.isEmpty_iff, hne]
  · rw [attachAuthHeader, h]

/-- Witness for C7 at a state holding the token `"tok"` and at the
empty state. -/
theorem c7_request_decoration_witness :
    attachAuthHeader
        { user := none, accessToken := some "tok", refreshToken := none,
          isAuthenticated := false, isLoading := false }
        { authorization := none, retry := false } =
      { authorization := some ("Bearer " ++ "tok"), retry := false }
    ∧ attachAuthHeader initialState { authorization := none, retry := false } =
      { authorization := none, retry := false } :=
  ⟨(c7_request_decoration _ _).1 "tok" rfl (by decide),
   (c7_request_decoration _ _).2 rfl⟩

/-- C8: calling `refreshAccessToken` with no cached refresh token
throws immediately (`没有刷新令牌`), performs no network request, and
leaves every field of the state — including the cached user and
`isAuthenticated` — untouched. -/
theorem c8_refresh_without_token (srv : Option (Option String × Option String))
    (s : AuthState) (h : s.refreshToken = none) :
    refreshAccessToken srv s = ⟨s, .error .noRefreshToken, 0⟩ := by
  simp [refreshAccessToken, truthy, h]

/-- Witness for C8 at an authenticated state lacking a refresh token. -/
theorem c8_refresh_without_token_witness :
    (({ user := none, accessToken := some "a0", refreshToken := none,
        isAuthenticated := true, isLoading := false } : AuthState)).refreshToken = none
    ∧ refreshAccessToken (some (some "a1", some "r1"))
        { user := none, accessToken := some "a0", refreshToken := none,
          isAuthenticated := true, isLoading := false } =
      ⟨{ user := none, accessToken := some "a0", refreshToken := none,
         isAuthenticated := true, isLoading := false },
       .error .noRefreshToken, 0⟩ :=
  ⟨rfl, c8_refresh_without_token _ _ rfl⟩

/-- C10: when the `/auth/login` call throws, `login` leaves `user`,
`accessToken`, `refreshToken` and `isAuthenticated` exactly as they
were, resets `isLoading` to `false`, and rethrows the error. -/
theorem c10_login_failure_frame (s : AuthState) :
    (login none s).1.user = s.user ∧
    (login none s).1.accessToken = s.accessToken ∧
    (login none s).1.refreshToken = s.refreshToken ∧
    (login none s).1.isAuthenticated = s.isAuthenticated ∧
    (login none s).1.isLoading = false ∧
    (login none s).2 = .error () := by
  simp [login]

/-- C9: every store operation preserves "authenticated implies both
tokens cached", provided token-bearing server responses carry non-null
token fields. -/
theorem c9_token_invariant_preserved (op : StoreOp) (s : AuthState)
    (hs : tokenInvariant s) (hop : serverTokensNonNull op) :
    tokenInvariant (applyOp op s) := by
  unfold tokenInvariant at hs ⊢
  cases op with
  | login srv =>
      cases srv with
      | none => simpa [applyOp, login] using hs
      | some r =>
          have hop' : r.access_token ≠ none ∧ r.refresh_token ≠ none := hop
          simpa [applyOp, login] using hop'
  | register srv => cases srv <;> simpa [applyOp, register] using hs
  | logout srvOk all => cases srvOk <;> simp [applyOp, logout, clearAuth]
  | refreshAccessToken srv =>
      by_cases htr : truthy s.refreshToken = false
      · simpa [applyOp, refreshAccessToken, htr] using hs
      · cases srv with
        | none => simp [applyOp, refreshAccessToken, htr, clearAuth]
        | some p =>
            obtain ⟨a, r⟩ := p
            have hop' : a ≠ none ∧ r ≠ none := hop
            simpa [applyOp, refreshAccessToken, htr] using fun _ => hop'
  | sendVerificationCode srv => simpa [applyOp, sendVerificationCode] using hs
  | forgotPassword srv => simpa [applyOp, forgotPassword] using hs
  | resetPassword srv => simpa [applyOp, resetPassword] using hs
  | changePassword srv => simpa [applyOp, changePassword] using hs
  | setTokens a r => simp [applyOp, setTokens]
  | clearAuth => simp [applyOp, clearAuth]
  | setUser u => simpa [applyOp, setUser] using hs
  | setLoading b => simpa [applyOp, setLoading] using hs

/-- Witness for C9: a successful login into the initial state keeps the
invariant. -/
theorem c9_token_invariant_preserved_witness :
    tokenInvariant initialState
    ∧ serverTokensNonNull (.login (some ⟨some "a", some "r", none⟩))
    ∧ tokenInvariant (applyOp (.login (some ⟨some "a", some "r", none⟩)) initialState) :=
  ⟨by decide, by decide,
   c9_token_invariant_preserved _ _ (by decide) (by decide)⟩

/-- The modelled hash is injective, so distinct raw refresh tokens have
distinct stored hashes. -/
theorem hashToken_inj {a b : String} (h : hashToken a = hashToken b) : a = b := by
  have hd : a.data = b.data := congrArg (fun s => s.data.tail) h
  exact String.ext hd

/-- C2: against the spec-modelled Token Service, a raw refresh token is
exactly-once-usable — the first `refresh` with it rotates the session's
hash (old hash moves to `previous_token_hash`), and a second `refresh`
with the same raw token after the grace window has elapsed fails with
`TokenReuseError` and revokes the session. -/
theorem c2_refresh_exactly_once_usable
    (raw0 newRaw a1 a2 raw2 : String) (grace ext t0 e0 n1 n2 : Nat)
    (hne : raw0 ≠ newRaw) (hlate : n1 + grace < n2) :
    serverRefresh n1 grace ext a1 newRaw raw0
        ⟨hashToken raw0, none, t0, e0, true⟩ =
      (⟨hashToken newRaw, some (hashToken raw0), n1, n1 + ext, true⟩,
       .ok (.rotated a1 newRaw))
    ∧ serverRefresh n2 grace ext a2 raw2 raw0
        ⟨hashToken newRaw, some (hashToken raw0), n1, n1 + ext, true⟩ =
      (⟨hashToken newRaw, some (hashToken raw0), n1, n1 + ext, false⟩,
       .error .tokenReuseError) := by
  have hh : hashToken raw0 ≠ hashToken newRaw := fun h => hne (hashToken_inj h)
  have h2 : ¬ ((some (hashToken raw0) : Option String) = some (hashToken raw0)
      ∧ n2 ≤ n1 + grace) := by
    rintro ⟨-, hle⟩; omega
  constructor
  · simp [serverRefresh]
  · simp [serverRefresh, hh, h2]
    omega

/-- Witness for C2: concrete rotation at time 10 with a 5-tick grace
window, replayed at time 16. -/
theorem c2_refresh_exactly_once_usable_witness :
    "r0" ≠ "r1" ∧ 10 + 5 < 16
    ∧ (serverRefresh 10 5 100 "A1" "r1" "r0" ⟨hashToken "r0", none, 0, 50, true⟩ =
        (⟨hashToken "r1", some (hashToken "r0"), 10, 10 + 100, true⟩,
         .ok (.rotated "A1" "r1"))
      ∧ serverRefresh 16 5 100 "A2" "r2" "r0"
          ⟨hashToken "r1", some (hashToken "r0"), 10, 10 + 100, true⟩ =
        (⟨hashToken "r1", some (hashToken "r0"), 10, 10 + 100, false⟩,
         .error .tokenReuseError)) :=
  ⟨by decide, by decide,
   c2_refresh_exactly_once_usable "r0" "r1" "A1" "A2" "r2" 5 100 0 50 10 16
     (by decide) (by decide)⟩

/-- A 401 arriving for a request already flagged `_retry` falls through
to a plain rejection with no state change and no refresh call. -/
theorem onResponseError_retried_rejects
    (srv : Option (Option String × Option String)) (s : AuthState)
    (st : Nat) (req : RequestConfig) (h : req.retry = true) :
    onResponseError srv s st req = ⟨s, .reject, false, 0⟩ := by
  rw [onResponseError]
  simp [h]

/-- The interceptor either rejects, or re-issues a request that carries
a `Bearer` header and the `_retry` flag. -/
theorem onResponseError_action_cases
    (srv : Option (Option String × Option String)) (s : AuthState)
    (st : Nat) (req : RequestConfig) :
    (onResponseError srv s st req).action = .reject ∨
    ∃ t : String,
      (onResponseError srv s st req).action =
        .retryWith ⟨some ("Bearer " ++ t), true⟩ := by
  rw [onResponseError]
  split
  · dsimp only
    split
    · split
      · split
        · exact .inl rfl
        · exact .inr ⟨_, rfl⟩
      · exact .inl rfl
    · exact .inl rfl
  · exact .inl rfl

/-- Any request the interceptor re-issues carries `_retry = true`. -/
theorem onResponseError_retryWith_flag
    (srv : Option (Option String × Option String)) (s : AuthState)
    (st : Nat) (req req' : RequestConfig)
    (h : (onResponseError srv s st req).action = .retryWith req') :
    req'.retry = true := by
  rcases onResponseError_action_cases srv s st req with hc | ⟨t, hc⟩
  · rw [hc] at h; cases h
  · have hr : req' = ⟨some ("Bearer " ++ t), true⟩ :=
      InterceptAction.retryWith.inj (h.symm.trans hc)
    rw [hr]

/-- A request already flagged `_retry` makes at most one further
attempt, whatever the server answers. -/
theorem runRequest_retried_le_one
    (srv : Option (Option String × Option String)) (statuses : Nat → Nat) :
    ∀ (fuel : Nat) (s : AuthState) (req : RequestConfig) (i : Nat),
      req.retry = true → (runRequest srv statuses fuel s req i).2 ≤ 1
  | 0, s, req, i, _ => by simp [runRequest]
  | fuel + 1, s, req, i, h => by
      rw [runRequest]
      by_cases h4 : statuses i = 401
      · rw [if_pos h4, onResponseError_retried_rejects srv s _ req h]
      · rw [if_neg h4]

/-- C3: a request is retried at most once — however the server answers
(the `statuses` function gives each attempt's HTTP status, e.g. an
unbroken series of 401s), a call entering the interceptor pipeline with
a fresh `_retry` flag is sent at most twice in total: the original
attempt plus at most one retry.  A request that was already retried and
fails again is never re-sent. -/
theorem c3_at_most_one_retry
    (srv : Option (Option String × Option String)) (statuses : Nat → Nat)
    (fuel : Nat) (s : AuthState) (req : RequestConfig) (i : Nat) :
    (runRequest srv statuses fuel s req i).2 ≤ 2
    ∧ (req.retry = true → (runRequest srv statuses fuel s req i).2 ≤ 1) := by
  refine ⟨?_, runRequest_retried_le_one srv statuses fuel s req i⟩
  cases fuel with
  | zero => simp [runRequest]
  | succ fuel =>
      rw [runRequest]
      by_cases h4 : statuses i = 401
      · rw [if_pos h4]
        dsimp only
        split
        · next req' heq =>
            have hflag := onResponseError_retryWith_flag srv s _ req req' heq
            have hrec := runRequest_retried_le_one srv statuses fuel
              (onResponseError srv s (statuses i) req).state req' (i + 1) hflag
            simpa using Nat.add_le_add_left hrec 1
        · simp
      · rw [if_neg h4]; simp

/-- Witness for C3: a server that keeps answering 401 still sees at
most two attempts of one fresh request. -/
theorem c3_at_most_one_retry_witness :
    (runRequest (some (some "a1", some "r1")) (fun _ => 401) 5
        { user := none, accessToken := some "a0", refreshToken := some "r0",
          isAuthenticated := true, isLoading := false }
        { authorization := none, retry := false } 0).2 ≤ 2
    ∧ ((({ authorization := none, retry := true } : RequestConfig)).retry = true
      ∧ (runRequest (some (some "a1", some "r1")) (fun _ => 401) 5
          { user := none, accessToken := some "a0", refreshToken := some "r0",
            isAuthenticated := true, isLoading := false }
          { authorization := none, retry := true } 0).2 ≤ 1) :=
  ⟨(c3_at_most_one_retry (some (some "a1", some "r1")) (fun _ => 401) 5
      { user := none, accessToken := some "a0", refreshToken := some "r0",
        isAuthenticated := true, isLoading := false }
      { authorization := none, retry := false } 0).1,
   rfl,
   (c3_at_most_one_retry (some (some "a1", some "r1")) (fun _ => 401) 5
      { user := none, accessToken := some "a0", refreshToken := some "r0",
        isAuthenticated := true, isLoading := false }
      { authorization := none, retry := true } 0).2 rfl⟩

/-- C6: when a not-yet-retried call hits a 401 and the refresh succeeds
(the server delivers a non-empty access token `a` and a refresh token
`r`), the interceptor retries the call exactly once: it re-issues it
with `Authorization: Bearer a` — the freshly cached token, not the
expired one — and the `_retry` flag set, and any further 401 on that
retried request is rejected rather than retried again. -/
theorem c6_retry_carries_new_token
    (s : AuthState) (req : RequestConfig) (a r : String)
    (hreq : req.retry = false) (htok : truthy s.refreshToken = true)
    (ha : a ≠ "") :
    onResponseError (some (some a, some r)) s 401 req =
      ⟨{ s with accessToken := some a, refreshToken := some r },
       .retryWith ⟨some ("Bearer " ++ a), true⟩, false, 1⟩
    ∧ ∀ (srv2 : Option (Option String × Option String)) (s2 : AuthState) (st2 : Nat),
        onResponseError srv2 s2 st2 ⟨some ("Bearer " ++ a), true⟩ =
          ⟨s2, .reject, false, 0⟩ := by
  refine ⟨?_, fun srv2 s2 st2 => onResponseError_retried_rejects srv2 s2 st2 _ rfl⟩
  have hE : a.isEmpty = false := by
    cases hE' : a.isEmpty
    · rfl
    · exact absurd ((String.isEmpty_iff a).mp hE') ha
  simp [onResponseError, refreshAccessToken, hreq, htok, hE]

/-- Witness for C6 at a cached pair `("a0", "r0")` rotated to
`("a1", "r1")`. -/
theorem c6_retry_carries_new_token_witness :
    (({ authorization := some "Bearer a0", retry := false } : RequestConfig)).retry = false
    ∧ truthy (some "r0") = true
    ∧ "a1" ≠ ""
    ∧ onResponseError (some (some "a1", some "r1"))
        { user := none, accessToken := some "a0", refreshToken := some "r0",
          isAuthenticated := true, isLoading := false }
        401 { authorization := some "Bearer a0", retry := false } =
      ⟨{ user := none, accessToken := some "a1", refreshToken := some "r1",
         isAuthenticated := true, isLoading := false },
       .retryWith ⟨some ("Bearer " ++ "a1"), true⟩, false, 1⟩ :=
  ⟨rfl, rfl, by decide,
   (c6_retry_carries_new_token
      { user := none, accessToken := some "a0", refreshToken := some "r0",
        isAuthenticated := true, isLoading := false }
      { authorization := some "Bearer a0", retry := false }
      "a1" "r1" rfl rfl (by decide)).1⟩

/-- C4: whenever `refreshAccessToken` fails — it threw because no
refresh token was cached or because the network call failed — the
waiting call is rejected (it fails with the original error), the cached
user and both tokens are cleared with `isAuthenticated` and `isLoading`
false, and the browser is redirected to `/login`. -/
theorem c4_refresh_failure_clears_and_redirects
    (srv : Option (Option String × Option String)) (s : AuthState)
    (req : RequestConfig) (e : RefreshError)
    (hreq : req.retry = false)
    (herr : (refreshAccessToken srv s).outcome = .error e) :
    onResponseError srv s 401 req =
      ⟨{ user := none, accessToken := none, refreshToken := none,
         isAuthenticated := false, isLoading := false },
       .reject, true, (refreshAccessToken srv s).networkCalls⟩ := by
  simp [onResponseError, hreq, herr, clearAuth]

/-- Witness for C4: a state holding the pair `("a0", "r0")` whose
refresh call throws server-side. -/
theorem c4_refresh_failure_clears_and_redirects_witness :
    (({ authorization := some "Bearer a0", retry := false } : RequestConfig)).retry = false
    ∧ (refreshAccessToken none
        { user := none, accessToken := some "a0", refreshToken := some "r0",
          isAuthenticated := true, isLoading := false }).outcome = .error .serverError
    ∧ onResponseError none
        { user := none, accessToken := some "a0", refreshToken := some "r0",
          isAuthenticated := true, isLoading := false }
        401 { authorization := some "Bearer a0", retry := false } =
      ⟨{ user := none, accessToken := none, refreshToken := none,
         isAuthenticated := false, isLoading := false },
       .reject, true,
       (refreshAccessToken none
          { user := none, accessToken := some "a0", refreshToken := some "r0",
            isAuthenticated := true, isLoading := false }).networkCalls⟩ :=
  ⟨rfl, by decide,
   c4_refresh_failure_clears_and_redirects none
     { user := none, accessToken := some "a0", refreshToken := some "r0",
       isAuthenticated := true, isLoading := false }
     { authorization := some "Bearer a0", retry := false }
     .serverError rfl (by decide)⟩

/-- A not-yet-retried 401 whose refresh succeeds leaves the store
holding the server's pair and has cost exactly one `refresh-token`
network call — for every such failing call, with no deduplication. -/
theorem onResponseError_fresh_success_cost
    (a r : Option String) (s : AuthState) (req : RequestConfig)
    (hreq : req.retry = false) (htok : truthy s.refreshToken = true) :
    (onResponseError (some (a, r)) s 401 req).state =
      { s with accessToken := a, refreshToken := r }
    ∧ (onResponseError (some (a, r)) s 401 req).refreshNetworkCalls = 1 := by
  cases a with
  | none => simp [onResponseError, refreshAccessToken, hreq, htok]
  | some t =>
      by_cases ht : t.isEmpty <;>
        simp [onResponseError, refreshAccessToken, hreq, htok, ht]

/-- Folding the response-error interceptor over a batch of fresh
(`_retry = false`) 401 failures makes one `refresh-token` call per
element of the batch. -/
theorem foldl_refresh_count (a r : Option String) (hr : truthy r = true) :
    ∀ (reqs : List RequestConfig) (s : AuthState) (k : Nat),
      (∀ q ∈ reqs, q.retry = false) → truthy s.refreshToken = true →
      (List.foldl
        (fun acc req =>
          ((onResponseError (some (a, r)) acc.1 401 req).state,
           acc.2 + (onResponseError (some (a, r)) acc.1 401 req).refreshNetworkCalls))
        (s, k) reqs).2 = k + reqs.length
  | [], s, k, _, _ => by simp
  | q :: reqs, s, k, hfresh, htok => by
      have hq : q.retry = false := hfresh q (List.mem_cons_self q reqs)
      have hstep := onResponseError_fresh_success_cost a r s q hq htok
      have htail : ∀ p ∈ reqs, p.retry = false :=
        fun p hp => hfresh p (List.mem_cons_of_mem q hp)
      have htok' : truthy ({ s with accessToken := a, refreshToken := r } : AuthState).refreshToken = true := hr
      have ih := foldl_refresh_count a r hr reqs
        { s with accessToken := a, refreshToken := r } (k + 1) htail htok'
      simp only [List.foldl, hstep.1, hstep.2]
      rw [ih]
      simp [Nat.add_comm, Nat.add_assoc, Nat.add_left_comm]

/-- C1 (amended): the interceptor has no single-flight guard — every
call that receives a 401 and has not been retried yet triggers its own
`refreshAccessToken()` invocation, so N concurrently failing calls
within one refresh window make exactly N network calls to
`/auth/refresh-token` (one per caller), each caller completing against
the refresh it itself started. -/
theorem c1_refresh_per_failing_call
    (a r : Option String) (s : AuthState) (reqs : List RequestConfig)
    (hr : truthy r = true) (hfresh : ∀ q ∈ reqs, q.retry = false)
    (htok : truthy s.refreshToken = true) :
    (processFailingCalls (some (a, r)) s reqs).2 = reqs.length := by
  have h := foldl_refresh_count a r hr reqs s 0 hfresh htok
  simpa [processFailingCalls] using h

/-- Witness for the amended C1: three concurrently failing calls make
three `refresh-token` network calls. -/
theorem c1_refresh_per_failing_call_witness :
    truthy (some "r1") = true
    ∧ (∀ q ∈ [({ authorization := some "Bearer a0", retry := false } : RequestConfig),
              { authorization := some "Bearer a0", retry := false },
              { authorization := some "Bearer a0", retry := false }], q.retry = false)
    ∧ truthy (some "r0") = true
    ∧ (processFailingCalls (some (some "a1", some "r1"))
        { user := none, accessToken := some "a0", refreshToken := some "r0",
          isAuthenticated := true, isLoading := false }
        [{ authorization := some "Bearer a0", retry := false },
         { authorization := some "Bearer a0", retry := false },
         { authorization := some "Bearer a0", retry := false }]).2 = 3 :=
  ⟨rfl, by decide, rfl,
   c1_refresh_per_failing_call (some "a1") (some "r1")
     { user := none, accessToken := some "a0", refreshToken := some "r0",
       isAuthenticated := true, isLoading := false }
     [{ authorization := some "Bearer a0", retry := false },
      { authorization := some "Bearer a0", retry := false },
      { authorization := some "Bearer a0", retry := false }]
     rfl (by decide) rfl⟩

/-- C1, as stated, is false of the code: already two calls that
concurrently receive a 401 within one refresh window trigger two
invocations of the refresh operation — the response interceptor starts
a fresh `refreshAccessToken()` for every failing call, it never
subscribes to an in-flight one. -/
theorem c1_counterexample :
    (processFailingCalls (some (some "a1", some "r1"))
        { user := none, accessToken := some "a0", refreshToken := some "r0",
          isAuthenticated := true, isLoading := false }
        [{ authorization := some "Bearer a0", retry := false },
         { authorization := some "Bearer a0", retry := false }]).2 = 2
    ∧ (processFailingCalls (some (some "a1", some "r1"))
        { user := none, accessToken := some "a0", refreshToken := some "r0",
          isAuthenticated := true, isLoading := false }
        [{ authorization := some "Bearer a0", retry := false },
         { authorization := some "Bearer a0", retry := false }]).2 ≠ 1 := by
  decide
